import Mathlib

/-!
Shallow embedding of the octopai terminal dashboard core (src/main.rs).

The pure data model, the fuzzy filter, the worktree-listing parser and the
description truncation are translated directly from the source.  Every
external process invocation (gh, git, tmux) is modelled at the collaborator
boundary: an environment value supplies the outcome of each command, and the
workflow functions additionally return the ordered trace of invocations they
attempted, so that ordering and partial-failure semantics are provable.

Rust string primitives (split, starts_with, trim, parse, replace, contains)
are given structurally recursive definitions over the character list of a
string, so that every embedded function evaluates inside the kernel.
-/

/-- Helper for the model of Rust's `str::split`: find the first occurrence
of a (non-empty) separator, returning the piece before it and the remainder
after it. -/
def splitFirst (sep : List Char) : List Char → Option (List Char × List Char)
  | [] => none
  | c :: cs =>
    if sep.isPrefixOf (c :: cs) then some ([], (c :: cs).drop sep.length)
    else
      match splitFirst sep cs with
      | some (pre, post) => some (c :: pre, post)
      | none => none

/-- Fuel-driven splitting loop; the fuel is an upper bound on the number of
separator occurrences, so the result equals Rust's `split`. -/
def splitFuel (sep : List Char) : Nat → List Char → List (List Char)
  | 0, s => [s]
  | fuel + 1, s =>
    match splitFirst sep s with
    | none => [s]
    | some (pre, post) => pre :: splitFuel sep fuel post

/-- Model of Rust's `str::split` with a non-empty string separator: empty
pieces are kept, matches are leftmost and non-overlapping. -/
def splitOnStr (sep s : String) : List String :=
  (splitFuel sep.data (s.data.length + 1) s.data).map String.mk

/-- Model of Rust's `str::starts_with`. -/
def startsWithStr (p s : String) : Bool := p.data.isPrefixOf s.data

/-- Model of Rust's `str::trim` (leading and trailing whitespace removed). -/
def trimStr (s : String) : String :=
  String.mk (((s.data.dropWhile Char.isWhitespace).reverse.dropWhile Char.isWhitespace).reverse)

/-- Model of Rust's `str::parse::<u64>` on the inputs the program feeds it:
all-digit strings parse to their decimal value, anything else fails. -/
def toNatStr (s : String) : Option Nat :=
  if s.data ≠ [] ∧ s.data.all Char.isDigit then
    some (s.data.foldl (fun n c => n * 10 + (c.toNat - 48)) 0)
  else none

/-- Model of Rust's `str::contains(char)`. -/
def containsChar (s : String) (c : Char) : Bool := s.data.contains c

/-- Replacement loop for Rust's `str::replace(char, &str)`. -/
def replaceCharAux (pat : Char) (rep : List Char) : List Char → List Char
  | [] => []
  | c :: cs => if c = pat then rep ++ replaceCharAux pat rep cs else c :: replaceCharAux pat rep cs

/-- Model of Rust's `str::replace` with a character pattern. -/
def replaceCharStr (s : String) (pat : Char) (rep : String) : String :=
  String.mk (replaceCharAux pat rep.data s.data)

/-- The single-quote character, written by code point to keep source lines
free of quote-escape sequences. -/
def squote : Char := Char.ofNat 39

/-- Colors used by the board, from ratatui's palette (only the variants the
source mentions). -/
inductive Color
  | red | green | blue | cyan | gray | lightRed | yellow | magenta | white | darkGray
deriving DecidableEq

/-- Card (src/main.rs lines 22-30): the normalized view of an issue or
worktree shown on the board. -/
structure Card where
  id : String
  title : String
  description : String
  full_description : Option String
  tag : String
  tag_color : Color
  related : List String
deriving DecidableEq

/-- Per-character mapping of Rust's `char::to_lowercase`, on the ranges
this development evaluates, each with the genuine Unicode table rule of
adding 32 to the code point: ASCII A-Z, the Latin-1 Supplement uppercase
range U+00C0-U+00DE minus the multiplication sign U+00D7, and the Greek
uppercase range U+0391-U+03AB minus the reserved U+03A2.  Characters
outside these ranges, whose mappings this development never needs, are
left unchanged; every general theorem below is independent of this table,
because in Rust's `str::to_lowercase` only the capital sigma is lowercased
context-sensitively and that branch is modelled separately. -/
def charToLower1 (c : Char) : List Char :=
  if 65 ≤ c.toNat ∧ c.toNat ≤ 90 then [Char.ofNat (c.toNat + 32)]
  else if 192 ≤ c.toNat ∧ c.toNat ≤ 222 ∧ c.toNat ≠ 215 then [Char.ofNat (c.toNat + 32)]
  else if 913 ≤ c.toNat ∧ c.toNat ≤ 939 ∧ c.toNat ≠ 930 then [Char.ofNat (c.toNat + 32)]
  else [c]

/-- Unicode Cased property on the same scoped ranges: ASCII letters,
Latin-1 letters (minus the multiplication and division signs) and Greek
letters. -/
def isCased (c : Char) : Bool :=
  decide ((65 ≤ c.toNat ∧ c.toNat ≤ 90) ∨ (97 ≤ c.toNat ∧ c.toNat ≤ 122) ∨
    (192 ≤ c.toNat ∧ c.toNat ≤ 255 ∧ c.toNat ≠ 215 ∧ c.toNat ≠ 247) ∨
    (913 ≤ c.toNat ∧ c.toNat ≤ 974 ∧ c.toNat ≠ 930))

/-- Unicode Case_Ignorable property on the characters this development can
meet: apostrophe, full stop, middle dot, Greek ano teleia and the
combining acute accent. -/
def isCaseIgnorable (c : Char) : Bool :=
  decide (c.toNat = 39 ∨ c.toNat = 46 ∨ c.toNat = 183 ∨ c.toNat = 903 ∨ c.toNat = 769)

/-- The helper case_ignorable_then_cased of Rust's `str::to_lowercase`:
skip Case_Ignorable characters, then test whether the next character is
Cased. -/
def caseIgnorableThenCased (l : List Char) : Bool :=
  match l.dropWhile isCaseIgnorable with
  | c :: _ => isCased c
  | [] => false

/-- The map_uppercase_sigma branch of Rust's `str::to_lowercase`: a capital
sigma lowers to the final form U+03C2 exactly when the preceding text (seen
reversed) is case-ignorable-then-cased and the following text is not, and
to U+03C3 otherwise. -/
def mapSigma (prevRev rest : List Char) : List Char :=
  if caseIgnorableThenCased prevRev && ! caseIgnorableThenCased rest then
    [Char.ofNat 962]
  else [Char.ofNat 963]

/-- Main loop of Rust's `str::to_lowercase`: prevRev carries the already
processed characters in reverse (the `from[..i].chars().rev()` iterator of
the source algorithm), rest is the remaining suffix; the capital sigma is
dispatched to the context-sensitive branch, every other character through
the per-character table. -/
def lowerLoop (prevRev : List Char) : List Char → List Char
  | [] => []
  | c :: rest =>
    (if c = 'Σ' then mapSigma prevRev rest else charToLower1 c) ++ lowerLoop (c :: prevRev) rest

/-- Model of Rust's `str::to_lowercase`, viewed as a character sequence. -/
def rustToLower (s : String) : List Char := lowerLoop [] s.data

/-- Core loop of fuzzy_match (src/main.rs lines 950-963): for each query
character, advance through the target until it is found; fail when the
target is exhausted. -/
def fuzzyAux : List Char → List Char → Bool
  | [], _ => true
  | _ :: _, [] => false
  | q :: qs, t :: ts => if t = q then fuzzyAux qs ts else fuzzyAux (q :: qs) ts

/-- fuzzy_match (src/main.rs lines 950-963): case-insensitive ordered
subsequence test over the to_lowercase images of query and target. -/
def fuzzy_match (query target : String) : Bool :=
  fuzzyAux (rustToLower query) (rustToLower target)

/-- card_matches (src/main.rs lines 965-967): a card passes a filter query
when its title or its description fuzzy-matches. -/
def card_matches (card : Card) (query : String) : Bool :=
  fuzzy_match query card.title || fuzzy_match query card.description

/-- get_repo_name (src/main.rs lines 283-285): last path segment of the
repository identifier, `repo.split('/').last().unwrap_or(repo)`. -/
def get_repo_name (repo : String) : String :=
  ((splitOnStr "/" repo).getLast?).getD repo

/-- Byte-accurate model of the Rust slice `&body[..k]` on a UTF-8 string:
take whole characters while their accumulated UTF-8 size stays within `k`;
`none` models the Rust panic when byte `k` is not a character boundary. -/
def utf8Take : List Char → Nat → Option (List Char)
  | _, 0 => some []
  | [], _ + 1 => none
  | c :: cs, k + 1 =>
    if c.utf8Size ≤ k + 1 then (utf8Take cs (k + 1 - c.utf8Size)).map (fun l => c :: l)
    else none

/-- Description computation in fetch_issues (src/main.rs lines 224-230):
`body.len()` is the UTF-8 byte length and `&body[..77]` is a byte slice, so
the whole computation is fallible (`none` models a Rust panic). -/
def rustDescription (body : String) : Option String :=
  if 80 < body.utf8ByteSize then
    (utf8Take body.data 77).map (fun l => String.mk l ++ "...")
  else if body = "" then some "No description"
  else some body

/-- Per-record accumulator of the worktree-listing parser
(src/main.rs lines 301-303). -/
structure WtAcc where
  path : String
  branch : String
  is_bare : Bool
deriving DecidableEq

/-- Line handler of the worktree-listing parser (src/main.rs lines 305-313):
a "worktree " line sets the path, a "branch refs/heads/" line sets the
branch, a bare "bare" line flags a bare repository. -/
def wtLine (acc : WtAcc) (line : String) : WtAcc :=
  if startsWithStr "worktree " line then { acc with path := line.drop 9 }
  else if startsWithStr "branch refs/heads/" line then { acc with branch := line.drop 18 }
  else if line = "bare" then { acc with is_bare := true }
  else acc

/-- Model of Rust's `str::lines()`: split on newline, with no empty trailing
line. -/
def rustLines (s : String) : List String :=
  if s = "" then []
  else
    let parts := splitOnStr "\n" s
    if parts.getLast? = some "" then parts.dropLast else parts

/-- Card construction from one parsed worktree record
(src/main.rs lines 315-344): records with an empty path or marked bare are
excluded; display name is the branch if present, else the last path segment;
main/master is tagged "primary"; an issue-N display name relates the card to
the issue card with id issue-N. -/
def wtCardOfRecord (path branch : String) (is_bare : Bool) : Option Card :=
  if path = "" ∨ is_bare then none
  else
    let display_name :=
      if branch = "" then ((splitOnStr "/" path).getLast?).getD path else branch
    let is_main := display_name = "main" ∨ display_name = "master"
    let tag := if is_main then "primary" else "branch"
    let tag_color := if is_main then Color.green else Color.yellow
    let related :=
      if startsWithStr "issue-" display_name then ["issue-" ++ display_name.drop 6] else []
    some { id := "wt-" ++ display_name, title := display_name, description := path,
           full_description := none, tag := tag, tag_color := tag_color, related := related }

/-- Parsing of one blank-line-separated record of the porcelain listing
(src/main.rs lines 300-345). -/
def parseBlock (block : String) : Option Card :=
  let acc := (rustLines block).foldl wtLine { path := "", branch := "", is_bare := false }
  wtCardOfRecord acc.path acc.branch acc.is_bare

/-- Porcelain worktree-listing parser (src/main.rs lines 297-347): records
are separated by a blank line. -/
def parseWorktrees (stdout : String) : List Card :=
  (splitOnStr "\n\n" stdout).filterMap parseBlock

/-- Outcome of one external command invocation, as seen through
`std::process::Command::output()`: a successful run, a run that completed
with a failure status and some standard-error text, or a spawn error. -/
inductive CmdRes
  | ok
  | errOutput (stderr : String)
  | errSpawn (msg : String)
deriving DecidableEq

/-- close_issue (src/main.rs lines 350-368): report the gh failure with its
trimmed standard error, or the spawn error. -/
def close_issue : CmdRes → Except String Unit
  | .ok => .ok ()
  | .errOutput stderr => .error ("gh error: " ++ (trimStr stderr))
  | .errSpawn msg => .error ("Failed to run gh: " ++ msg)

/-- create_issue (src/main.rs lines 260-281): same error shape as
close_issue. -/
def create_issue : CmdRes → Except String Unit
  | .ok => .ok ()
  | .errOutput stderr => .error ("gh error: " ++ (trimStr stderr))
  | .errSpawn msg => .error ("Failed to run gh: " ++ msg)

/-- Outcome of the issue-listing collaborator call (src/main.rs lines
188-211): on success gh returns JSON that is parsed into cards (the
per-issue card construction is the mapping of lines 213-257, whose
description field is modelled by rustDescription); a failed command or
unparsable output is the `bad` case, which the source silently maps to an
empty list, discarding the standard error entirely. -/
inductive FetchIssuesRes
  | good (cards : List Card)
  | bad (stderr : String)
deriving DecidableEq

/-- fetch_issues failure handling (src/main.rs lines 202-211): any failure
yields the empty list with no message. -/
def fetch_issues : FetchIssuesRes → List Card
  | .good cards => cards
  | .bad _ => []

/-- Outcome of `git worktree list --porcelain` (src/main.rs lines 287-295). -/
inductive FetchWorktreesRes
  | good (stdout : String)
  | bad (stderr : String)
deriving DecidableEq

/-- fetch_worktrees (src/main.rs lines 287-348): parse the porcelain output
on success; any failure yields the empty list with no message. -/
def fetch_worktrees : FetchWorktreesRes → List Card
  | .good stdout => parseWorktrees stdout
  | .bad _ => []

/-- Environment for remove_worktree: the outcome of each of its three
external commands. -/
structure TdEnv where
  kill_session : CmdRes
  worktree_remove : CmdRes
  branch_delete : CmdRes
deriving DecidableEq

/-- External invocations attempted by remove_worktree, in order. -/
inductive TdCall
  | killSession (name : String)
  | worktreeRemove (path : String)
  | branchDelete (branch : String)
deriving DecidableEq

/-- remove_worktree (src/main.rs lines 370-392): best-effort tmux
kill-session (result discarded), then `git worktree remove` whose failure is
fatal and surfaced, then best-effort `git branch -D` (result discarded).
The returned list is the trace of attempted invocations. -/
def remove_worktree (env : TdEnv) (path branch : String) :
    Except String Unit × List TdCall :=
  let calls := [TdCall.killSession branch, TdCall.worktreeRemove path]
  match env.worktree_remove with
  | .errSpawn msg => (.error ("Failed to run git: " ++ msg), calls)
  | .errOutput stderr =>
    (.error ("git worktree remove error: " ++ (trimStr stderr)), calls)
  | .ok => (.ok (), calls ++ [TdCall.branchDelete branch])

/-- Environment for create_worktree_and_session: the outcome of each of its
four external commands. -/
structure ProvEnv where
  worktree_add : CmdRes
  new_session : CmdRes
  split_window : CmdRes
  send_keys : CmdRes
deriving DecidableEq

/-- External invocations attempted by create_worktree_and_session, in
order. -/
inductive PCall
  | worktreeAdd (path branch : String)
  | newSession (name dir : String)
  | splitWindow (target dir : String)
  | sendKeys (target cmd : String)
deriving DecidableEq

/-- Claude prompt built by create_worktree_and_session
(src/main.rs lines 437-444). -/
def claudePrompt (repo : String) (number : Nat) (title body : String) : String :=
  "You are working on GitHub issue #" ++ toString number ++ " for the repo " ++ repo ++
    ".\n\nTitle: " ++ title ++ "\n\n" ++
    (if body = "" then "No description provided." else body) ++
    "\n\nPlease investigate the codebase and implement a solution for this issue."

/-- Assistant command line built by create_worktree_and_session
(src/main.rs lines 446-450), with single quotes shell-escaped. -/
def claudeCmd (prompt : String) : String :=
  "claude -p '" ++ replaceCharStr prompt squote "'\\''" ++
    "' --allowedTools 'Read,Edit,Bash' --max-turns 10"

/-- create_worktree_and_session (src/main.rs lines 394-457): derive the
branch and worktree path, then run worktree-add, tmux new-session, tmux
split-window (each failure aborts and is surfaced), and finally a
best-effort tmux send-keys whose result is discarded. -/
def create_worktree_and_session (env : ProvEnv) (repo : String) (number : Nat)
    (title body : String) : Except String Unit × List PCall :=
  let repo_name := get_repo_name repo
  let branch := "issue-" ++ toString number
  let worktree_path := "../" ++ repo_name ++ "-issue-" ++ toString number
  let c1 := [PCall.worktreeAdd worktree_path branch]
  match env.worktree_add with
  | .errSpawn msg => (.error ("Failed to run git: " ++ msg), c1)
  | .errOutput stderr => (.error ("git worktree add error: " ++ (trimStr stderr)), c1)
  | .ok =>
    let c2 := c1 ++ [PCall.newSession branch worktree_path]
    match env.new_session with
    | .errSpawn msg => (.error ("Failed to create tmux session: " ++ msg), c2)
    | .errOutput stderr => (.error ("tmux error: " ++ (trimStr stderr)), c2)
    | .ok =>
      let c3 := c2 ++ [PCall.splitWindow branch worktree_path]
      match env.split_window with
      | .errSpawn msg => (.error ("Failed to split tmux pane: " ++ msg), c3)
      | .errOutput stderr => (.error ("tmux split error: " ++ (trimStr stderr)), c3)
      | .ok =>
        let cmd := claudeCmd (claudePrompt repo number title body)
        (.ok (), c3 ++ [PCall.sendKeys branch cmd])

/-- The ignored variable `_` binding of the send-keys call (src/main.rs
lines 452-454) means env.send_keys is never consulted: the result above is
independent of it, which is the modelled best-effort semantics.  The title
and body of the issue influence only the sendKeys payload. -/
theorem create_worktree_and_session_send_keys_free (e1 e2 : ProvEnv)
    (repo : String) (number : Nat) (title body : String)
    (h1 : e1.worktree_add = e2.worktree_add) (h2 : e1.new_session = e2.new_session)
    (h3 : e1.split_window = e2.split_window) :
    create_worktree_and_session e1 repo number title body =
      create_worktree_and_session e2 repo number title body := by
  unfold create_worktree_and_session
  rw [h1, h2, h3]

/-- Screen (src/main.rs lines 50-54). -/
inductive Screen
  | repoSelect
  | board
deriving DecidableEq

/-- Mode (src/main.rs lines 42-48); Filtering carries its live query. -/
inductive Mode
  | normal
  | filtering (query : String)
  | creatingIssue
  | confirming
deriving DecidableEq

/-- ConfirmAction (src/main.rs lines 32-35). -/
inductive ConfirmAction
  | closeIssue (number : Nat)
  | removeWorktree (path branch : String)
deriving DecidableEq

/-- ConfirmModal (src/main.rs lines 37-40). -/
structure ConfirmModal where
  message : String
  on_confirm : ConfirmAction
deriving DecidableEq

/-- IssueModal (src/main.rs lines 459-464). -/
structure IssueModal where
  title : String
  body : String
  active_field : Nat
  error : Option String
deriving DecidableEq

/-- IssueModal::new (src/main.rs lines 466-475). -/
def IssueModal.new : IssueModal :=
  { title := "", body := "", active_field := 0, error := none }

/-- The `selected_card: [usize; 4]` array of per-section cursors. -/
structure Sel where
  s0 : Nat
  s1 : Nat
  s2 : Nat
  s3 : Nat
deriving DecidableEq

/-- Read one cursor; indices above 3 never occur in the program (the active
section is maintained modulo 4) and default to 0. -/
def Sel.get (x : Sel) : Nat → Nat
  | 0 => x.s0
  | 1 => x.s1
  | 2 => x.s2
  | 3 => x.s3
  | _ + 4 => 0

/-- Write one cursor. -/
def Sel.set (x : Sel) : Nat → Nat → Sel
  | 0, v => { x with s0 := v }
  | 1, v => { x with s1 := v }
  | 2, v => { x with s2 := v }
  | 3, v => { x with s3 := v }
  | _ + 4, _ => x

/-- App (src/main.rs lines 477-491).  Of RepoSelectState only the seeded
input field is modelled; the picker's list, filter and phase live behind the
collaborator boundary and the chosen repository arrives with the pick
transition. -/
structure App where
  screen : Screen
  repo : String
  rs_input : String
  issues : List Card
  worktrees : List Card
  pull_requests : List Card
  sessions : List Card
  active_section : Nat
  selected_card : Sel
  mode : Mode
  issue_modal : Option IssueModal
  confirm_modal : Option ConfirmModal
  status_message : Option String
deriving DecidableEq

/-- App::section_cards (src/main.rs lines 514-522). -/
def App.section_cards (a : App) (s : Nat) : List Card :=
  match s with
  | 0 => a.issues
  | 1 => a.worktrees
  | 2 => a.pull_requests
  | 3 => a.sessions
  | _ + 4 => []

/-- App::section_card_count (src/main.rs lines 524-526). -/
def App.section_card_count (a : App) (s : Nat) : Nat :=
  (a.section_cards s).length

/-- App::clamp_selected (src/main.rs lines 528-536): re-clamp the cursor of
the active section only. -/
def App.clamp_selected (a : App) : App :=
  let s := a.active_section
  let count := a.section_card_count s
  if count = 0 then { a with selected_card := a.selected_card.set s 0 }
  else if count ≤ a.selected_card.get s then
    { a with selected_card := a.selected_card.set s (count - 1) }
  else a

/-- App::move_card_up (src/main.rs lines 538-543). -/
def App.move_card_up (a : App) : App :=
  let s := a.active_section
  if 0 < a.selected_card.get s then
    { a with selected_card := a.selected_card.set s (a.selected_card.get s - 1) }
  else a

/-- App::move_card_down (src/main.rs lines 545-551). -/
def App.move_card_down (a : App) : App :=
  let s := a.active_section
  let count := a.section_card_count s
  if 0 < count ∧ a.selected_card.get s < count - 1 then
    { a with selected_card := a.selected_card.set s (a.selected_card.get s + 1) }
  else a

/-- App::enter_repo_select (src/main.rs lines 563-572): seed the picker
input with the owner segment and switch screens. -/
def App.enter_repo_select (a : App) : App :=
  let owner := if containsChar a.repo '/' then ((splitOnStr "/" a.repo).head?).getD "" else ""
  { a with rs_input := owner, screen := .repoSelect }

/-- Key events the board loop distinguishes; char carries the CONTROL
modifier flag so that the Ctrl+S submit arm is separable from plain text. -/
inductive Key
  | esc
  | enter
  | tab
  | backTab
  | up
  | down
  | backspace
  | char (c : Char) (ctrl : Bool)
deriving DecidableEq

/-- External operations the board loop can run during one step, in order. -/
inductive ExtOp
  | provisionOp (repo : String) (number : Nat)
  | closeIssueOp (repo : String) (number : Nat)
  | removeWorktreeOp (path branch : String)
  | createIssueOp (repo title body : String)
  | listIssuesOp
  | listWorktreesOp
deriving DecidableEq

/-- Result of one iteration of the event loop on the board screen: the next
application state, the trace of external operations run, and whether the
loop breaks (quit). -/
structure StepRes where
  app : App
  calls : List ExtOp
  quit : Bool
deriving DecidableEq

/-- Environment of one loop iteration: the outcome every external
collaborator call would have if it were run during this step. -/
structure Env where
  fetch_issues_res : FetchIssuesRes
  fetch_worktrees_res : FetchWorktreesRes
  close_issue_res : CmdRes
  create_issue_res : CmdRes
  prov : ProvEnv
  td : TdEnv
deriving DecidableEq

/-- Step result with no external calls and no quit. -/
def noop (a : App) : StepRes := { app := a, calls := [], quit := false }

/-- Key 'w' on the issues section (src/main.rs lines 751-781): run the
provisioning workflow on the selected issue card, refresh worktrees and
re-clamp on success, set a status message either way. -/
def handleProvision (env : Env) (a : App) : StepRes :=
  match a.issues.get? (a.selected_card.get 0) with
  | none => noop a
  | some card =>
    if startsWithStr "issue-" card.id then
      match toNatStr (card.id.drop 6) with
      | none => noop a
      | some number =>
        let title := card.title
        let body := card.full_description.getD ""
        match (create_worktree_and_session env.prov a.repo number title body).1 with
        | .ok _ =>
          let a1 := App.clamp_selected { a with worktrees := fetch_worktrees env.fetch_worktrees_res }
          let msg := "Created worktree and session for issue #" ++ toString number
          { app := { a1 with status_message := some msg },
            calls := [.provisionOp a.repo number, .listWorktreesOp], quit := false }
        | .error e =>
          { app := { a with status_message := some ("Error: " ++ e) },
            calls := [.provisionOp a.repo number], quit := false }
    else noop a

/-- Key 'd' on the issues section (src/main.rs lines 782-799): open the
close-issue confirmation. -/
def handleCloseConfirm (a : App) : StepRes :=
  match a.issues.get? (a.selected_card.get 0) with
  | none => noop a
  | some card =>
    if startsWithStr "issue-" card.id then
      match toNatStr (card.id.drop 6) with
      | none => noop a
      | some number =>
        let m : ConfirmModal :=
          { message := "Close issue #" ++ toString number ++ "?\n\n" ++ card.title,
            on_confirm := .closeIssue number }
        noop { a with confirm_modal := some m, mode := .confirming }
    else noop a

/-- Key 'd' on the worktrees section (src/main.rs lines 800-822): refuse for
main/master with a status message, otherwise open the removal
confirmation. -/
def handleRemoveConfirm (a : App) : StepRes :=
  match a.worktrees.get? (a.selected_card.get 1) with
  | none => noop a
  | some card =>
    let branch := card.title
    if branch = "main" ∨ branch = "master" then
      noop { a with status_message := some "Cannot remove main/master worktree" }
    else
      let path := card.description
      let m : ConfirmModal :=
        { message := "Remove worktree '" ++ branch ++ "'?\n\nPath: " ++ path ++
            "\nThis will also delete the branch and kill any tmux session.",
          on_confirm := .removeWorktree path branch }
      noop { a with confirm_modal := some m, mode := .confirming }

/-- Key 'y' in Confirming mode (src/main.rs lines 832-872): take the modal,
execute its action, refresh and re-clamp the affected section on success,
set a status message, return to Normal. -/
def handleConfirmYes (env : Env) (a : App) : StepRes :=
  match a.confirm_modal with
  | none => noop { a with mode := .normal }
  | some modal =>
    let a := { a with confirm_modal := none }
    match modal.on_confirm with
    | .closeIssue number =>
      match close_issue env.close_issue_res with
      | .ok _ =>
        let a1 := App.clamp_selected { a with issues := fetch_issues env.fetch_issues_res }
        let msg := "Closed issue #" ++ toString number
        { app := { a1 with status_message := some msg, mode := .normal },
          calls := [.closeIssueOp a.repo number, .listIssuesOp], quit := false }
      | .error e =>
        { app := { a with status_message := some ("Error: " ++ e), mode := .normal },
          calls := [.closeIssueOp a.repo number], quit := false }
    | .removeWorktree path branch =>
      match (remove_worktree env.td path branch).1 with
      | .ok _ =>
        let a1 := App.clamp_selected { a with worktrees := fetch_worktrees env.fetch_worktrees_res }
        let msg := "Removed worktree '" ++ branch ++ "'"
        { app := { a1 with status_message := some msg, mode := .normal },
          calls := [.removeWorktreeOp path branch, .listWorktreesOp], quit := false }
      | .error e =>
        { app := { a with status_message := some ("Error: " ++ e), mode := .normal },
          calls := [.removeWorktreeOp path branch], quit := false }

/-- Ctrl+S in CreatingIssue mode (src/main.rs lines 896-917): reject an
empty trimmed title with a modal error, otherwise create the issue; on
success refresh issues, re-clamp, close the modal; on failure keep the modal
with its error. -/
def submitIssue (env : Env) (a : App) (modal : IssueModal) : StepRes :=
  let title := trimStr modal.title
  if title = "" then
    noop { a with issue_modal := some { modal with error := some "Title cannot be empty" } }
  else
    match create_issue env.create_issue_res with
    | .ok _ =>
      let a1 := App.clamp_selected { a with issues := fetch_issues env.fetch_issues_res }
      { app := { a1 with issue_modal := none, mode := .normal },
        calls := [.createIssueOp a.repo title modal.body, .listIssuesOp], quit := false }
    | .error e =>
      { app := { a with issue_modal := some { modal with error := some e } },
        calls := [.createIssueOp a.repo title modal.body], quit := false }

/-- One iteration of the event loop on the board screen
(src/main.rs lines 706-940), keyed on the current mode. -/
def boardStep (env : Env) (k : Key) (a : App) : StepRes :=
  match a.mode with
  | .filtering query =>
    match k with
    | .esc => noop { a with mode := .normal }
    | .backspace => noop (App.clamp_selected { a with mode := .filtering (query.dropRight 1) })
    | .up => noop (App.move_card_up a)
    | .down => noop (App.move_card_down a)
    | .char c _ => noop (App.clamp_selected { a with mode := .filtering (query.push c) })
    | _ => noop a
  | .normal =>
    let a := { a with status_message := none }
    match k with
    | .esc => { app := a, calls := [], quit := true }
    | .enter => noop (App.enter_repo_select a)
    | .tab => noop { a with active_section := (a.active_section + 1) % 4 }
    | .backTab => noop { a with active_section := (a.active_section + 3) % 4 }
    | .up => noop (App.move_card_up a)
    | .down => noop (App.move_card_down a)
    | .backspace => noop a
    | .char c _ =>
      if c = 'q' then { app := a, calls := [], quit := true }
      else if c = '/' then noop { a with mode := .filtering "" }
      else if c = 'n' ∧ a.active_section = 0 then
        noop { a with mode := .creatingIssue, issue_modal := some IssueModal.new }
      else if c = 'w' ∧ a.active_section = 0 then handleProvision env a
      else if c = 'd' ∧ a.active_section = 0 then handleCloseConfirm a
      else if c = 'd' ∧ a.active_section = 1 then handleRemoveConfirm a
      else if c = 'k' then noop (App.move_card_up a)
      else if c = 'j' then noop (App.move_card_down a)
      else noop a
  | .confirming =>
    match k with
    | .char 'y' _ => handleConfirmYes env a
    | .char 'Y' _ => handleConfirmYes env a
    | .char 'n' _ => noop { a with confirm_modal := none, mode := .normal }
    | .char 'N' _ => noop { a with confirm_modal := none, mode := .normal }
    | .esc => noop { a with confirm_modal := none, mode := .normal }
    | _ => noop a
  | .creatingIssue =>
    match a.issue_modal with
    | none => noop a
    | some modal =>
      match k with
      | .esc => noop { a with issue_modal := none, mode := .normal }
      | .tab =>
        let f := if modal.active_field = 0 then 1 else 0
        noop { a with issue_modal := some { modal with active_field := f } }
      | .enter =>
        if modal.active_field = 0 then
          noop { a with issue_modal := some { modal with active_field := 1 } }
        else
          noop { a with issue_modal := some { modal with body := modal.body.push '\n' } }
      | .backspace =>
        if modal.active_field = 0 then
          noop { a with issue_modal := some { modal with title := modal.title.dropRight 1 } }
        else
          noop { a with issue_modal := some { modal with body := modal.body.dropRight 1 } }
      | .char c ctrl =>
        if c = 's' ∧ ctrl then submitIssue env a modal
        else if modal.active_field = 0 then
          noop { a with issue_modal := some { modal with title := modal.title.push c } }
        else
          noop { a with issue_modal := some { modal with body := modal.body.push c } }
      | _ => noop a

/-- Board state built by the startup config-load path
(src/main.rs lines 584-591): fetch both lists, reset all cursors. -/
def boardInit (repo : String) (ir : FetchIssuesRes) (wr : FetchWorktreesRes) : App :=
  { screen := .board, repo := repo, rs_input := "",
    issues := fetch_issues ir, worktrees := fetch_worktrees wr,
    pull_requests := [], sessions := [],
    active_section := 0, selected_card := { s0 := 0, s1 := 0, s2 := 0, s3 := 0 },
    mode := .normal, issue_modal := none, confirm_modal := none, status_message := none }

/-- Repository pick on the repo-select screen (src/main.rs lines 660-671):
refresh both lists, reset all cursors, record the repo, return to the
board. -/
def applyPick (a : App) (repo : String) (ir : FetchIssuesRes) (wr : FetchWorktreesRes) : App :=
  { a with issues := fetch_issues ir, worktrees := fetch_worktrees wr,
           selected_card := { s0 := 0, s1 := 0, s2 := 0, s3 := 0 },
           repo := repo, screen := .board }

/-- Reachable application states: a startup config load, any board-screen
loop iteration, and a repository pick from the repo-select screen.  The
environments carried by the transitions range over all collaborator
behaviours. -/
inductive Reach : App → Prop
  | init (repo : String) (ir : FetchIssuesRes) (wr : FetchWorktreesRes) :
      Reach (boardInit repo ir wr)
  | step (env : Env) (k : Key) (a : App) :
      Reach a → a.screen = .board → Reach (boardStep env k a).app
  | pick (a : App) (repo : String) (ir : FetchIssuesRes) (wr : FetchWorktreesRes) :
      Reach a → a.screen = .repoSelect → Reach (applyPick a repo ir wr)

/-- The cursor invariant of the specification at one section: the selected
index is inside the section's card list, or 0 when the list is empty. -/
def invAt (a : App) (s : Nat) : Prop :=
  a.selected_card.get s < (a.section_cards s).length ∨
    ((a.section_cards s).length = 0 ∧ a.selected_card.get s = 0)

instance (a : App) (s : Nat) : Decidable (invAt a s) := by
  unfold invAt; infer_instance

/-- Number of cards of a section that pass the current filter, as rendered
(src/main.rs lines 1216-1219 and 1542-1550): in Filtering mode with a
non-empty query only matching cards are shown. -/
def visibleCount (a : App) (s : Nat) : Nat :=
  match a.mode with
  | .filtering query =>
    if query = "" then (a.section_cards s).length
    else ((a.section_cards s).filter (fun c => card_matches c query)).length
  | _ => (a.section_cards s).length

lemma fuzzyAux_iff_sublist : ∀ (t q : List Char), fuzzyAux q t = true ↔ List.Sublist q t := by
  intro t
  induction t with
  | nil =>
    intro q
    cases q with
    | nil => simp [fuzzyAux]
    | cons c cs => simp [fuzzyAux]
  | cons tc ts ih =>
    intro q
    cases q with
    | nil => simp [fuzzyAux]
    | cons qc qs =>
      by_cases h : tc = qc
      · subst h
        simp only [fuzzyAux, if_pos rfl, List.cons_sublist_cons]
        exact ih qs
      · simp only [fuzzyAux, if_neg h]
        rw [ih (qc :: qs), List.cons_sublist_cons']
        constructor
        · exact fun hsub => Or.inl hsub
        · rintro (hsub | ⟨heq, -⟩)
          · exact hsub
          · exact absurd heq.symm h

lemma data_append (s t : String) : (s ++ t).data = s.data ++ t.data := rfl

lemma lowerLoop_append (l₁ l₂ : List Char) :
    ∀ prevRev, ¬ ('Σ' ∈ l₁) →
      lowerLoop prevRev (l₁ ++ l₂) =
        lowerLoop prevRev l₁ ++ lowerLoop (l₁.reverse ++ prevRev) l₂ := by
  induction l₁ with
  | nil =>
    intro prevRev h
    simp [lowerLoop]
  | cons c cs ih =>
    intro prevRev h
    have hc : ¬ (c = 'Σ') := fun hh => h (by simp [hh])
    have hcs : ¬ ('Σ' ∈ cs) := fun hh => h (List.mem_cons_of_mem _ hh)
    simp only [List.cons_append, lowerLoop, if_neg hc, List.append_eq]
    rw [ih (c :: prevRev) hcs]
    simp [List.append_assoc, List.reverse_cons]

lemma rustToLower_append_of_sigma_free (t s : String) (h : ¬ ('Σ' ∈ t.data)) :
    rustToLower (t ++ s) = rustToLower t ++ lowerLoop t.data.reverse s.data := by
  unfold rustToLower
  rw [data_append, lowerLoop_append t.data s.data [] h]
  simp

/-- C4 (counterexample): the claimed unrestricted monotonicity fails in the
program, because to_lowercase is context-sensitive at a capital sigma: the
word-final sigma of ΑΣ lowers to the final form ς, so the query ς matches,
but appending Β demotes it to σ and the match is lost. -/
theorem c4_sigma_monotonicity_counterexample :
    fuzzy_match "ς" "ΑΣ" = true ∧ fuzzy_match "ς" ("ΑΣ" ++ "Β") = false := by
  exact ⟨by decide, by decide⟩

/-- C4 (amended): fuzzy_match is a case-insensitive ordered-subsequence
predicate over the to_lowercase images — it accepts the empty query on any
target, any string against itself, is exactly the sublist relation on the
lowered character sequences, matches across case also outside ASCII, and
the two spec examples evaluate as stated; monotonicity under extending the
target holds whenever the target contains no capital sigma, the one
character whose lowercasing is context-sensitive. -/
theorem c4_fuzzy_match_amended :
    (∀ t : String, fuzzy_match "" t = true) ∧
    (∀ t : String, fuzzy_match t t = true) ∧
    (∀ q t s : String, ¬ ('Σ' ∈ t.data) →
      fuzzy_match q t = true → fuzzy_match q (t ++ s) = true) ∧
    (∀ q t : String, fuzzy_match q t = true ↔ List.Sublist (rustToLower q) (rustToLower t)) ∧
    fuzzy_match "gh" "github" = true ∧ fuzzy_match "hg" "github" = false ∧
    fuzzy_match "ä" "Ä" = true := by
  refine ⟨fun t => by simp [fuzzy_match, rustToLower, lowerLoop, fuzzyAux], ?_, ?_,
    fun q t => fuzzyAux_iff_sublist _ _, by decide, by decide, by decide⟩
  · intro t
    exact (fuzzyAux_iff_sublist _ _).mpr (List.Sublist.refl _)
  · intro q t s hsig h
    have h1 := (fuzzyAux_iff_sublist (rustToLower t) (rustToLower q)).mp h
    have h2 : List.Sublist (rustToLower t) (rustToLower (t ++ s)) := by
      rw [rustToLower_append_of_sigma_free t s hsig]
      exact List.sublist_append_left _ _
    exact (fuzzyAux_iff_sublist _ _).mpr (h1.trans h2)

/-- Witness for C4's amended theorem: the restricted monotonicity
implication discharged at the spec's example pair, whose target is
sigma-free. -/
theorem c4_fuzzy_match_amended_witness :
    ¬ ('Σ' ∈ "github".data) ∧ fuzzy_match "gh" "github" = true ∧
    fuzzy_match "gh" ("github" ++ "-actions") = true := by
  refine ⟨by decide, by decide, ?_⟩
  exact c4_fuzzy_match_amended.2.2.1 "gh" "github" "-actions" (by decide) (by decide)

/-- C5: evidence of the byte/character divergence in the description
truncation.  A body of 81 two-byte characters (162 bytes) takes the
truncation branch and the byte slice at 77 falls inside a character, so the
code panics (modelled as none), while the claim promises the first 77
characters plus an ellipsis; for ASCII bodies the code behaves exactly as
the claim states. -/
theorem c5_description_truncation_byte_bug :
    rustDescription (String.mk (List.replicate 81 'é')) = none ∧
    (String.mk (List.replicate 81 'é')).length = 81 ∧
    (String.mk (List.replicate 81 'é')).utf8ByteSize = 162 ∧
    rustDescription "" = some "No description" ∧
    rustDescription (String.mk (List.replicate 81 'a')) =
      some (String.mk (List.replicate 77 'a') ++ "...") ∧
    rustDescription (String.mk (List.replicate 80 'a')) =
      some (String.mk (List.replicate 80 'a')) := by
  refine ⟨by decide, by decide, by decide, by decide, by decide, by decide⟩

/-- C1: the provisioning workflow derives branch issue-N and worktree path
../name-issue-N (first attempted invocation), and when the worktree-add
command fails the workflow returns an error carrying the command's trimmed
standard error and never attempts the session creation. -/
theorem c1_provision_derivation_and_add_failure :
    ∀ (env : ProvEnv) (repo : String) (number : Nat) (title body : String),
      (create_worktree_and_session env repo number title body).2.head? =
        some (PCall.worktreeAdd
          ("../" ++ get_repo_name repo ++ "-issue-" ++ toString number)
          ("issue-" ++ toString number)) ∧
      ∀ e, env.worktree_add = .errOutput e →
        (create_worktree_and_session env repo number title body).1 =
          .error ("git worktree add error: " ++ trimStr e) ∧
        ∀ nm dir, ¬ (PCall.newSession nm dir ∈
          (create_worktree_and_session env repo number title body).2) := by
  intro env repo number title body
  constructor
  · rcases hwa : env.worktree_add <;> rcases hns : env.new_session <;>
      rcases hsw : env.split_window <;>
      simp [create_worktree_and_session, hwa, hns, hsw]
  · intro e he
    constructor
    · simp [create_worktree_and_session, he]
    · intro nm dir hmem
      simp [create_worktree_and_session, he] at hmem

/-- Provisioning environment whose worktree-add fails, used by the C1
witness. -/
def c1wEnv : ProvEnv :=
  { worktree_add := .errOutput "boom", new_session := .ok,
    split_window := .ok, send_keys := .ok }

/-- Witness for C1 at the spec's concrete scenario: issue 7 of acme/widgets
with a failing worktree-add. -/
theorem c1_provision_derivation_and_add_failure_witness :
    (create_worktree_and_session c1wEnv "acme/widgets" 7 "T" "B").2.head? =
      some (PCall.worktreeAdd "../widgets-issue-7" "issue-7") ∧
    (create_worktree_and_session c1wEnv "acme/widgets" 7 "T" "B").1 =
      .error "git worktree add error: boom" ∧
    ¬ (PCall.newSession "issue-7" "../widgets-issue-7" ∈
      (create_worktree_and_session c1wEnv "acme/widgets" 7 "T" "B").2) := by
  have h := c1_provision_derivation_and_add_failure c1wEnv "acme/widgets" 7 "T" "B"
  have h2 := h.2 "boom" rfl
  refine ⟨?_, ?_, h2.2 "issue-7" "../widgets-issue-7"⟩
  · rw [h.1]
    decide
  · rw [h2.1, show trimStr "boom" = "boom" from by decide]
    rfl

/-- C8: the teardown workflow first attempts the best-effort session kill,
then the worktree removal; on removal success it also attempts the
best-effort branch deletion and returns success whatever the kill and
delete outcomes were; on removal failure it returns the error carrying the
command's trimmed standard error (or the spawn message) and never attempts
the branch deletion. -/
theorem c8_teardown_order_and_failure_semantics :
    ∀ (env : TdEnv) (path branch : String),
      (remove_worktree env path branch).2.head? = some (TdCall.killSession branch) ∧
      (env.worktree_remove = .ok →
        (remove_worktree env path branch).1 = .ok () ∧
        (remove_worktree env path branch).2 =
          [TdCall.killSession branch, TdCall.worktreeRemove path,
           TdCall.branchDelete branch]) ∧
      (∀ e, env.worktree_remove = .errOutput e →
        (remove_worktree env path branch).1 =
          .error ("git worktree remove error: " ++ trimStr e) ∧
        ¬ (TdCall.branchDelete branch ∈ (remove_worktree env path branch).2)) ∧
      (∀ m, env.worktree_remove = .errSpawn m →
        (remove_worktree env path branch).1 = .error ("Failed to run git: " ++ m) ∧
        ¬ (TdCall.branchDelete branch ∈ (remove_worktree env path branch).2)) := by
  intro env path branch
  refine ⟨?_, ?_, ?_, ?_⟩
  · rcases hwr : env.worktree_remove <;> simp [remove_worktree, hwr]
  · intro h
    simp [remove_worktree, h]
  · intro e h
    simp [remove_worktree, h]
  · intro m h
    simp [remove_worktree, h]

/-- Teardown environment whose worktree removal fails, with failing kill
and delete commands, used by the C8 witness. -/
def c8wEnvFail : TdEnv :=
  { kill_session := .errOutput "no session", worktree_remove := .errOutput " in use ",
    branch_delete := .errOutput "x" }

/-- Teardown environment whose worktree removal succeeds while the kill and
delete commands fail, used by the C8 witness. -/
def c8wEnvOk : TdEnv :=
  { kill_session := .errOutput "no session", worktree_remove := .ok,
    branch_delete := .errOutput "x" }

/-- Witness for C8: both the failing-removal and the successful-removal
conclusions at concrete inputs, with failing kill and delete commands to
exhibit that their outcomes are ignored. -/
theorem c8_teardown_order_and_failure_semantics_witness :
    (remove_worktree c8wEnvFail "/r/wt" "issue-7").1 =
      .error "git worktree remove error: in use" ∧
    ¬ (TdCall.branchDelete "issue-7" ∈ (remove_worktree c8wEnvFail "/r/wt" "issue-7").2) ∧
    (remove_worktree c8wEnvOk "/r/wt" "issue-7").1 = .ok () := by
  have h1 := c8_teardown_order_and_failure_semantics c8wEnvFail "/r/wt" "issue-7"
  have h2 := c8_teardown_order_and_failure_semantics c8wEnvOk "/r/wt" "issue-7"
  have h3 := h1.2.2.1 " in use " rfl
  refine ⟨?_, h3.2, (h2.2.1 rfl).1⟩
  · rw [h3.1, show trimStr " in use " = "in use" from by decide]
    rfl

/-- C9: when worktree creation, session creation and pane split all succeed
the provisioning workflow returns success whatever the outcome of the final
assistant keystroke dispatch is; the dispatch is attempted as the last of
exactly four invocations and no removal or rollback call exists in the
trace. -/
theorem c9_send_keys_failure_swallowed :
    ∀ (env : ProvEnv) (repo : String) (number : Nat) (title body : String),
      env.worktree_add = .ok → env.new_session = .ok → env.split_window = .ok →
      (create_worktree_and_session env repo number title body).1 = .ok () ∧
      (create_worktree_and_session env repo number title body).2 =
        [PCall.worktreeAdd ("../" ++ get_repo_name repo ++ "-issue-" ++ toString number)
           ("issue-" ++ toString number),
         PCall.newSession ("issue-" ++ toString number)
           ("../" ++ get_repo_name repo ++ "-issue-" ++ toString number),
         PCall.splitWindow ("issue-" ++ toString number)
           ("../" ++ get_repo_name repo ++ "-issue-" ++ toString number),
         PCall.sendKeys ("issue-" ++ toString number)
           (claudeCmd (claudePrompt repo number title body))] := by
  intro env repo number title body h1 h2 h3
  constructor
  · simp [create_worktree_and_session, h1, h2, h3]
  · simp [create_worktree_and_session, h1, h2, h3]

/-- Provisioning environment whose only failure is the final send-keys
dispatch, used by the C9 witness. -/
def c9wEnv : ProvEnv :=
  { worktree_add := .ok, new_session := .ok, split_window := .ok,
    send_keys := .errOutput "tmux send failed" }

/-- Witness for C9 with a failing send-keys outcome: success is still
returned and all four invocations were attempted. -/
theorem c9_send_keys_failure_swallowed_witness :
    (create_worktree_and_session c9wEnv "acme/widgets" 7 "Fix" "").1 = .ok () ∧
    (create_worktree_and_session c9wEnv "acme/widgets" 7 "Fix" "").2.length = 4 := by
  have h := c9_send_keys_failure_swallowed c9wEnv "acme/widgets" 7 "Fix" "" rfl rfl rfl
  refine ⟨h.1, ?_⟩
  rw [h.2]
  rfl

/-- The two cards parsed from the spec's porcelain example. -/
def c10CardMain : Card :=
  { id := "wt-main", title := "main", description := "/a/b", full_description := none,
    tag := "primary", tag_color := Color.green, related := [] }

/-- Second card of the porcelain example, linked to issue-7. -/
def c10CardIssue : Card :=
  { id := "wt-issue-7", title := "issue-7", description := "/a/c", full_description := none,
    tag := "branch", tag_color := Color.yellow, related := ["issue-7"] }

/-- C10: the spec's porcelain example parses to exactly two cards, the first
tagged primary and the second related to issue-7; in general a bare record
is excluded, and a retained record's display name, primary tag and issue
relation follow the stated rules. -/
theorem c10_porcelain_parsing :
    parseWorktrees
        "worktree /a/b\nbranch refs/heads/main\n\nworktree /a/c\nbranch refs/heads/issue-7\n" =
      [c10CardMain, c10CardIssue] ∧
    (∀ p b, wtCardOfRecord p b true = none) ∧
    (∀ p b c, b ≠ "" → wtCardOfRecord p b false = some c →
      c.title = b ∧ (c.tag = "primary" ↔ (b = "main" ∨ b = "master")) ∧
      (startsWithStr "issue-" b = true → c.related = ["issue-" ++ b.drop 6]) ∧
      (startsWithStr "issue-" b = false → c.related = [])) ∧
    (∀ p c, p ≠ "" → wtCardOfRecord p "" false = some c →
      c.title = ((splitOnStr "/" p).getLast?).getD p) := by
  refine ⟨by decide, ?_, ?_, ?_⟩
  · intro p b
    simp [wtCardOfRecord]
  · intro p b c hb hsome
    by_cases hp : p = ""
    · simp [wtCardOfRecord, hp] at hsome
    · rw [wtCardOfRecord, if_neg (by simp [hp])] at hsome
      simp only [if_neg hb] at hsome
      have hc := (Option.some.inj hsome).symm
      subst hc
      refine ⟨rfl, ?_, ?_, ?_⟩
      · by_cases hmain : b = "main" ∨ b = "master" <;> simp [hmain]
      · intro ht
        simp [ht]
      · intro hf
        simp [hf]
  · intro p c hp hsome
    rw [wtCardOfRecord, if_neg (by simp [hp])] at hsome
    have hc := (Option.some.inj hsome).symm
    subst hc
    simp

/-- Card parsed from a record with path /a/b and no branch line: the display
name falls back to the last path segment. -/
def c10CardPathB : Card :=
  { id := "wt-b", title := "b", description := "/a/b", full_description := none,
    tag := "branch", tag_color := Color.yellow, related := [] }

/-- Witness for C10: the record-level rules discharged at the example's own
records. -/
theorem c10_porcelain_parsing_witness :
    wtCardOfRecord "/x" "main" true = none ∧
    c10CardIssue.title = "issue-7" ∧
    c10CardIssue.related = ["issue-" ++ "issue-7".drop 6] ∧
    c10CardPathB.title = (((splitOnStr "/" "/a/b").getLast?).getD "/a/b") := by
  have h2 := c10_porcelain_parsing.2.2.1 "/a/c" "issue-7" c10CardIssue
    (by decide) (by decide)
  have h3 := c10_porcelain_parsing.2.2.2 "/a/b" c10CardPathB (by decide) (by decide)
  exact ⟨c10_porcelain_parsing.2.1 "/x" "main", h2.1, h2.2.2.1 (by decide), h3⟩

lemma clamp_selected_invAt (a : App) : invAt (App.clamp_selected a) a.active_section := by
  obtain ⟨sc, rp, ri, iss, wts, prs, sess, act, sel, md, im, cm, sm⟩ := a
  obtain ⟨v0, v1, v2, v3⟩ := sel
  rcases act with _ | _ | _ | _ | n <;>
    simp only [invAt, App.clamp_selected, App.section_card_count, App.section_cards,
      Sel.get, Sel.set, List.length_nil] <;>
    (try split_ifs) <;> (try dsimp only) <;> (try trivial) <;> omega

/-- C2 (amended): the re-clamp performed after a mutation applies to the
active section only — after clamp_selected the active section's cursor is a
valid index or 0 on an empty list, and a repository pick resets every
section's cursor to 0, which is valid for every section. -/
theorem c2_reclamp_active_section_only :
    (∀ a : App, invAt (App.clamp_selected a) a.active_section) ∧
    (∀ (a : App) (repo : String) (ir : FetchIssuesRes) (wr : FetchWorktreesRes) (s : Nat),
      invAt (applyPick a repo ir wr) s) := by
  refine ⟨clamp_selected_invAt, ?_⟩
  intro a repo ir wr s
  rcases s with _ | _ | _ | _ | n <;>
    simp only [invAt, applyPick, App.section_cards, Sel.get, List.length_nil, and_true] <;>
    first
    | exact Or.inl trivial
    | exact Or.inr trivial
    | exact Or.symm (Nat.eq_zero_or_pos _)

/-- Environment whose listing calls fail and whose commands succeed, used
by the navigation steps of the reachable counterexample traces. -/
def env0 : Env :=
  { fetch_issues_res := .bad "", fetch_worktrees_res := .bad "",
    close_issue_res := .ok, create_issue_res := .ok,
    prov := { worktree_add := .ok, new_session := .ok, split_window := .ok, send_keys := .ok },
    td := { kill_session := .ok, worktree_remove := .ok, branch_delete := .ok } }

/-- An issue card as fetch_issues would build it for issue 1. -/
def icard : Card :=
  { id := "issue-1", title := "#1 Fix parser bug", description := "No description",
    full_description := none, tag := "open", tag_color := .green, related := [] }

/-- Porcelain listing with two worktree records. -/
def wtTwo : String :=
  "worktree /r/alpha\nbranch refs/heads/alpha\n\nworktree /r/beta\nbranch refs/heads/beta"

/-- Start state of the C2 counterexample trace: one issue, two worktrees. -/
def cexS0 : App := boardInit "acme/widgets" (.good [icard]) (.good wtTwo)

/-- After Tab: worktrees section active. -/
def cexS1 : App := (boardStep env0 .tab cexS0).app

/-- After Down: worktree cursor moves to index 1. -/
def cexS2 : App := (boardStep env0 .down cexS1).app

/-- After Tab. -/
def cexS3 : App := (boardStep env0 .tab cexS2).app

/-- After Tab. -/
def cexS4 : App := (boardStep env0 .tab cexS3).app

/-- After Tab: back to the issues section, worktree cursor still 1. -/
def cexS5 : App := (boardStep env0 .tab cexS4).app

/-- Environment of the final step: provisioning succeeds but the worktree
listing refresh returns an empty listing. -/
def cexEnvW : Env := { env0 with fetch_worktrees_res := .good "" }

/-- After 'w' on the issue card: the worktree list is replaced by the empty
list while only the issues-section cursor is re-clamped. -/
def cexS6 : App := (boardStep cexEnvW (.char 'w' false) cexS5).app

/-- C2 (counterexample): a reachable state in which the worktree section's
cursor is 1 while its card list is empty — the cursor invariant fails for a
non-active section after the provisioning refresh shrinks its list. -/
theorem c2_cursor_invariant_counterexample :
    Reach cexS6 ∧ ¬ (∀ s, s < 4 → invAt cexS6 s) := by
  constructor
  · exact Reach.step _ _ _ (Reach.step _ _ _ (Reach.step _ _ _ (Reach.step _ _ _
      (Reach.step _ _ _ (Reach.step _ _ _ (Reach.init _ _ _) rfl) rfl) rfl) rfl) rfl) rfl
  · decide

/-- C3: pressing 'd' in Board/Normal mode with the worktree section active
while the selected worktree card is named main or master never opens a
confirmation dialog, runs no external operation, and sets the explanatory
status message; the worktree list is untouched and the interface stays in
Normal mode. -/
theorem c3_main_worktree_removal_refused :
    ∀ (env : Env) (a : App) (card : Card),
      a.mode = .normal → a.active_section = 1 →
      a.worktrees.get? (a.selected_card.get 1) = some card →
      (card.title = "main" ∨ card.title = "master") →
      (boardStep env (.char 'd' false) a).app.mode = .normal ∧
      (boardStep env (.char 'd' false) a).app.confirm_modal = a.confirm_modal ∧
      (boardStep env (.char 'd' false) a).calls = [] ∧
      (boardStep env (.char 'd' false) a).quit = false ∧
      (boardStep env (.char 'd' false) a).app.status_message =
        some "Cannot remove main/master worktree" ∧
      (boardStep env (.char 'd' false) a).app.worktrees = a.worktrees := by
  intro env a card hmode hsec hget htitle
  unfold boardStep
  rw [hmode]
  dsimp only
  rw [hsec]
  rw [if_neg (by decide), if_neg (by decide), if_neg (by decide), if_neg (by decide),
    if_neg (by decide), if_pos (by decide)]
  unfold handleRemoveConfirm
  dsimp only
  rw [hget]
  dsimp only
  rw [if_pos htitle]
  exact ⟨rfl, rfl, rfl, rfl, rfl, rfl⟩

/-- Board state with the worktree section active and the primary (main)
worktree selected, used by the C3 witness. -/
def c3wApp : App :=
  { boardInit "acme/widgets" (.good [icard])
      (.good "worktree /a/b\nbranch refs/heads/main") with
    active_section := 1 }

/-- Witness for C3 at a concrete state whose selected worktree is main. -/
theorem c3_main_worktree_removal_refused_witness :
    (boardStep env0 (.char 'd' false) c3wApp).app.mode = .normal ∧
    (boardStep env0 (.char 'd' false) c3wApp).app.confirm_modal = none ∧
    (boardStep env0 (.char 'd' false) c3wApp).calls = [] ∧
    (boardStep env0 (.char 'd' false) c3wApp).app.status_message =
      some "Cannot remove main/master worktree" := by
  have h := c3_main_worktree_removal_refused env0 c3wApp
    { id := "wt-main", title := "main", description := "/a/b", full_description := none,
      tag := "primary", tag_color := Color.green, related := [] }
    rfl rfl (by decide) (Or.inl rfl)
  exact ⟨h.1, h.2.1, h.2.2.1, h.2.2.2.2.1⟩

/-- C7 (amended): while filtering, each character added or removed re-runs
clamp_selected, which clamps the active section's cursor against the full
unfiltered card count of that section — not against the filtered count. -/
theorem c7_filtering_reclamps_against_full_count :
    ∀ (env : Env) (a : App) (q : String) (c : Char),
      a.mode = .filtering q →
      invAt (boardStep env (.char c false) a).app a.active_section ∧
      invAt (boardStep env .backspace a).app a.active_section := by
  intro env a q c hmode
  unfold boardStep
  rw [hmode]
  dsimp only
  exact ⟨clamp_selected_invAt _, clamp_selected_invAt _⟩

/-- An issue card titled alpha. -/
def c7cA : Card :=
  { id := "i1", title := "alpha", description := "a", full_description := none,
    tag := "open", tag_color := .green, related := [] }

/-- An issue card titled beta. -/
def c7cB : Card :=
  { id := "i2", title := "beta", description := "b", full_description := none,
    tag := "open", tag_color := .green, related := [] }

/-- Start state of the C7 counterexample trace: two issues. -/
def c7S0 : App := boardInit "o/r" (.good [c7cA, c7cB]) (.good "")

/-- After Down: issue cursor at index 1. -/
def c7S1 : App := (boardStep env0 .down c7S0).app

/-- After '/': Filtering mode with empty query. -/
def c7S2 : App := (boardStep env0 (.char '/' false) c7S1).app

/-- After typing 'z': no card passes the filter, cursor still 1. -/
def c7S3 : App := (boardStep env0 (.char 'z' false) c7S2).app

/-- C7 (counterexample): a reachable Filtering state in which no card passes
the query yet the cursor is 1, because the re-clamp uses the full card count
(2), refuting the claim that the cursor is re-clamped against the filtered
count. -/
theorem c7_filtered_count_counterexample :
    Reach c7S3 ∧ c7S3.mode = .filtering "z" ∧ visibleCount c7S3 0 = 0 ∧
    c7S3.active_section = 0 ∧
    ¬ (c7S3.selected_card.get 0 < visibleCount c7S3 0 ∨
        (visibleCount c7S3 0 = 0 ∧ c7S3.selected_card.get 0 = 0)) := by
  refine ⟨?_, by decide, by decide, by decide, by decide⟩
  exact Reach.step _ _ _ (Reach.step _ _ _ (Reach.step _ _ _ (Reach.init _ _ _) rfl) rfl) rfl

/-- Witness for C7's amended theorem at the counterexample's own state. -/
theorem c7_filtering_reclamps_against_full_count_witness :
    invAt (boardStep env0 (.char 'z' false) c7S2).app c7S2.active_section ∧
    invAt (boardStep env0 .backspace c7S2).app c7S2.active_section :=
  c7_filtering_reclamps_against_full_count env0 c7S2 "" 'z' rfl

/-- Boolean substring test on the character sequences of two strings. -/
def strHasSubB (sub s : String) : Bool := decide (List.IsInfix sub.data s.data)

/-- Whether any operator-visible text of the state (status message, issue
modal error, confirmation message) contains the given text. -/
def mentionsB (a : App) (t : String) : Bool :=
  (match a.status_message with
   | some m => strHasSubB t m
   | none => false) ||
  (match a.issue_modal with
   | some im =>
     match im.error with
     | some e => strHasSubB t e
     | none => false
   | none => false) ||
  (match a.confirm_modal with
   | some cm => strHasSubB t cm.message
   | none => false)

/-- Board state about to confirm closing issue 1, reached by pressing 'd'
on the issue card. -/
def c6S1 : App := (boardStep env0 (.char 'd' false) (boardInit "acme/widgets"
  (.good [icard]) (.good ""))).app

/-- Environment in which closing the issue succeeds but the issue-listing
refresh fails with standard error boom. -/
def c6Env : Env := { env0 with fetch_issues_res := .bad "boom" }

/-- Step that confirms the close: the listing failure is silently rendered
as an empty issues list. -/
def c6R : StepRes := boardStep c6Env (.char 'y' false) c6S1

/-- C6 (counterexample): a reachable confirmation step in which the
issue-listing call fails with standard error boom, yet the resulting state
shows the success message for the close, the issues list is silently
emptied, and no operator-visible text mentions the failure — refuting the
claim that every collaborator failure, including listing calls, is
reported. -/
theorem c6_listing_failure_unreported_counterexample :
    Reach c6R.app ∧
    c6Env.fetch_issues_res = .bad "boom" ∧
    c6R.calls = [.closeIssueOp "acme/widgets" 1, .listIssuesOp] ∧
    c6R.app.issues = [] ∧
    c6R.app.status_message = some "Closed issue #1" ∧
    mentionsB c6R.app "boom" = false ∧
    c6R.quit = false := by
  refine ⟨?_, by decide, by decide, by decide, by decide, by decide, by decide⟩
  exact Reach.step _ _ _ (Reach.step _ _ _ (Reach.init _ _ _) rfl) rfl

/-- C6 (amended): failures of the mutating collaborator calls (close issue,
remove worktree, provision, create issue) are reported as human-readable
text carrying the collaborator's trimmed standard error and are non-fatal,
while failures of the two listing calls (issues, worktrees) are not
reported: the section is silently replaced by the empty list. -/
theorem c6_mutation_failures_reported_listing_failures_silent :
    (∀ e : String, fetch_issues (.bad e) = [] ∧ fetch_worktrees (.bad e) = []) ∧
    (∀ (env : Env) (a : App) (e : String) (n : Nat) (msg : String),
      a.mode = .confirming →
      a.confirm_modal = some { message := msg, on_confirm := .closeIssue n } →
      env.close_issue_res = .errOutput e →
      (boardStep env (.char 'y' false) a).app.status_message =
        some ("Error: " ++ ("gh error: " ++ trimStr e)) ∧
      (boardStep env (.char 'y' false) a).quit = false ∧
      (boardStep env (.char 'y' false) a).app.mode = .normal) ∧
    (∀ (env : Env) (a : App) (e : String) (p b msg : String),
      a.mode = .confirming →
      a.confirm_modal = some { message := msg, on_confirm := .removeWorktree p b } →
      env.td.worktree_remove = .errOutput e →
      (boardStep env (.char 'y' false) a).app.status_message =
        some ("Error: " ++ ("git worktree remove error: " ++ trimStr e)) ∧
      (boardStep env (.char 'y' false) a).quit = false ∧
      (boardStep env (.char 'y' false) a).app.mode = .normal) ∧
    (∀ (env : Env) (a : App) (e : String) (card : Card) (n : Nat),
      a.mode = .normal → a.active_section = 0 →
      a.issues.get? (a.selected_card.get 0) = some card →
      startsWithStr "issue-" card.id = true →
      toNatStr (card.id.drop 6) = some n →
      env.prov.worktree_add = .errOutput e →
      (boardStep env (.char 'w' false) a).app.status_message =
        some ("Error: " ++ ("git worktree add error: " ++ trimStr e)) ∧
      (boardStep env (.char 'w' false) a).quit = false) ∧
    (∀ (env : Env) (a : App) (e : String) (modal : IssueModal),
      a.mode = .creatingIssue → a.issue_modal = some modal →
      ¬ (trimStr modal.title = "") →
      env.create_issue_res = .errOutput e →
      (boardStep env (.char 's' true) a).app.issue_modal =
        some { modal with error := some ("gh error: " ++ trimStr e) } ∧
      (boardStep env (.char 's' true) a).quit = false) := by
  refine ⟨fun e => ⟨rfl, rfl⟩, ?_, ?_, ?_, ?_⟩
  · intro env a e n msg hmode hcm hres
    unfold boardStep
    rw [hmode]
    dsimp only
    unfold handleConfirmYes
    rw [hcm]
    dsimp only
    rw [hres]
    dsimp only [close_issue]
    exact ⟨rfl, rfl, rfl⟩
  · intro env a e p b msg hmode hcm hres
    unfold boardStep
    rw [hmode]
    dsimp only
    unfold handleConfirmYes
    rw [hcm]
    dsimp only
    have hrm : (remove_worktree env.td p b).1 =
        .error ("git worktree remove error: " ++ trimStr e) := by
      unfold remove_worktree
      rw [hres]
    rw [hrm]
    exact ⟨rfl, rfl, rfl⟩
  · intro env a e card n hmode hsec hget hstart htn hadd
    unfold boardStep
    rw [hmode]
    dsimp only
    rw [hsec]
    rw [if_neg (by decide), if_neg (by decide), if_neg (by decide), if_pos (by decide)]
    unfold handleProvision
    dsimp only
    rw [hget]
    dsimp only
    rw [if_pos hstart, htn]
    dsimp only
    have hc : (create_worktree_and_session env.prov a.repo n card.title
        (card.full_description.getD "")).1 =
        .error ("git worktree add error: " ++ trimStr e) := by
      unfold create_worktree_and_session
      rw [hadd]
    rw [hc]
    exact ⟨rfl, rfl⟩
  · intro env a e modal hmode him htitle hres
    unfold boardStep
    rw [hmode]
    dsimp only
    rw [him]
    dsimp only
    rw [if_pos (by decide)]
    unfold submitIssue
    rw [if_neg htitle, hres]
    dsimp only [create_issue]
    exact ⟨rfl, rfl⟩

/-- Environment in which the close-issue command itself fails, used by the
C6 witness. -/
def c6wEnv : Env := { env0 with close_issue_res := .errOutput " denied " }

/-- Witness for C6's amended theorem: the close-issue reporting conjunct at
the concrete confirmation state. -/
theorem c6_mutation_failures_reported_witness :
    (boardStep c6wEnv (.char 'y' false) c6S1).app.status_message =
      some ("Error: " ++ ("gh error: " ++ trimStr " denied ")) ∧
    (boardStep c6wEnv (.char 'y' false) c6S1).quit = false ∧
    (boardStep c6wEnv (.char 'y' false) c6S1).app.mode = .normal ∧
    fetch_issues (.bad "boom") = [] := by
  have h := c6_mutation_failures_reported_listing_failures_silent
  have h2 := h.2.1 c6wEnv c6S1 " denied " 1 ("Close issue #1?\n\n" ++ icard.title)
    (by decide) (by decide) rfl
  exact ⟨h2.1, h2.2.1, h2.2.2, (h.1 "boom").1⟩
